import Mathlib

/-!
Verification of the dtcg-web dashboard selection, caching, and HTTP wiring.

The development shallowly embeds the reactive selection component
(`src/dtcgweb/ui/components/cryotempo_selection.py`, class `CryotempoSelection`)
and the HTTP route table (`src/dtcgweb/app.py`). Python dicts with string keys
become association lists, Python exceptions become an explicit `PyExc` value,
and every call into the external model-and-plotting service (the `dtcg`
backend) is either an oracle supplied through an `Env` record or a `Vis`
constructor that records the arguments this layer passes to the external
plotting primitive.
-/

set_option autoImplicit false

namespace DTCGWeb

/-- Python exception kinds raised by the embedded code paths. -/
inductive PyExc where
  | attributeError
  | typeError
  | keyError (key : String)
  | indexError
  | valueError
  | nameError
  | fileNotFound
  | other (msg : String)
deriving DecidableEq, Repr

/-- Lookup `d.get(k)` on a Python dict with string keys, embedded as an
association list (first match wins; keys are unique by construction). -/
def alistGet {α : Type} : List (String × α) → String → Option α
  | [], _ => none
  | (k, v) :: t, key => if k = key then some v else alistGet t key

/-- Store `d[k] = v` on a Python dict: overwrite in place when the key exists,
otherwise append (Python dicts keep the original position on overwrite). -/
def alistPut {α : Type} : List (String × α) → String → α → List (String × α)
  | [], key, val => [(key, val)]
  | (k, v) :: t, key, val =>
    if k = key then (key, val) :: t else (k, v) :: alistPut t key val

/-- Substring test `sub in s` on Python strings, over character lists:
true iff some suffix of `s` has `sub` as a prefix (so the empty string is
contained in everything, as in Python). -/
def containsSub (sub : List Char) : List Char → Bool
  | [] => sub.isEmpty
  | c :: t => sub.isPrefixOf (c :: t) || containsSub sub t

/-- Substring test `sub in s` on Python strings. -/
def pyContains (sub s : String) : Bool :=
  containsSub sub.data s.data

/-- Split `s.split(sep)` for a single-character separator, with Python
semantics: splitting the empty string gives `[""]`, and adjacent separators
produce empty segments. -/
def splitOnChar (sep : Char) : List Char → List (List Char)
  | [] => [[]]
  | c :: t =>
    if c = sep then [] :: splitOnChar sep t
    else
      match splitOnChar sep t with
      | [] => [[c]]
      | h :: r => (c :: h) :: r

/-- Pad `s.zfill(width)`: left-pad with `'0'` up to `width`. (Python moves a
leading sign before the padding; the inputs here are `Nat` decimal strings,
which carry no sign.) -/
def zfill (width : Nat) (s : String) : String :=
  if width ≤ s.length then s
  else String.mk (List.replicate (width - s.length) '0') ++ s

/-- Slice `s[a:b]` on a Python string; slicing never raises. -/
def pySlice (s : String) (a b : Nat) : List Char :=
  (s.data.drop a).take (b - a)

/-- Convert `int(s)` restricted to plain decimal-digit strings; any other
shape raises `ValueError`. (Python also strips whitespace and accepts a sign;
the RGI-ID slices handled here never carry those, and a divergence there only
changes which branch of an enclosing try/except fires.) -/
def pyIntDigits (cs : List Char) : Except PyExc Nat :=
  if cs ≠ [] ∧ cs.all (fun c => c.isDigit) then
    .ok (cs.foldl (fun n c => n * 10 + (c.toNat - 48)) 0)
  else .error .valueError

/-! ## Data model of the selection component

Cached payloads coming back from the external service (datacubes, mass-balance
series, runoff series, outlines) are opaque to this layer: it only passes them
on or tests them against `None`. They are embedded as `Nat` tokens wrapped in
`Option`, with `none` standing for Python `None`. The glacier directory is the
one payload this layer reads into: `gdir.get("rgi_area_km2", None)` and
`gdir.get("name", "")`, so it is an association list. -/

/-- A glacier dataset as assembled by `CryotempoSelection.get_cached_data`
(cryotempo_selection.py:401-425): every field is `cached_data.get(key, None)`,
so each defaults to `none` when the binder cache lacks the artifact. -/
structure Dataset where
  gdir : Option (List (String × String))
  eolis : Option Nat
  smb : Option Nat
  runoff_data : Option (List (String × List (String × Nat)))
  outlines : Option Nat
deriving DecidableEq, Repr

/-- Result of the external `binder.get_cached_data(rgi_id, cache)`: which of
the five artifacts the on-disk cache holds for a glacier. -/
structure RawCached where
  gdir : Option (List (String × String))
  eolis : Option Nat
  smb : Option Nat
  runoff : Option (List (String × List (String × Nat)))
  outlines : Option Nat
deriving DecidableEq, Repr

/-- Visual objects. Results of external plotting calls are recorded as
constructors carrying exactly the arguments this layer passes them
(`.opts` calls that only set sizing or axis cosmetics are dropped; titles,
which the claims mention, are kept via `withTitle`); panel containers built in
this layer (`pn.Column`, `pn.Row`, `hv.Layout`, `hv.Overlay`,
`pn.Column("message")`) are kept structurally. -/
inductive Vis where
  | runoffTimeseries (series : Nat) (refYear : Nat) (cumulative : Bool) (nyears : Nat)
  | mbComparison (smb : Option Nat) (refYear : Nat) (datacube : Option Nat)
      (gdir : Option (List (String × String))) (cumulative : Bool) (modelName : String)
  | eolisTimeseries (datacube : Nat) (massBalance : Bool) (glacierArea : Option String)
  | eolisSmb (datacube : Nat) (refYear : Nat) (cumulative : Bool) (glacierArea : Option String)
  | withTitle (v : Vis) (title : String)
  | overlay (items : List Vis)
  | externalFig (tok : Nat)
  | layoutOf (items : List Vis) (title : Option String)
  | columnOf (items : List Vis)
  | rowOf (items : List Vis)
  | textPane (msg : String) (paneName : String)

/-- Outcome of the external `streamer.zip_datacube` call. -/
inductive ZipOutcome where
  | ok (path : String)
  | fileNotFound
  | otherError
deriving DecidableEq, Repr

/-- A `pn.state.notifications` banner posted by this layer. -/
structure Notification where
  message : String
  duration : Nat
  position : String
deriving DecidableEq, Repr

/-- External collaborators, abstracted as pure oracles: the cache reader of the `dtcg` binder, the title formatter of the artist, `gpd.read_feather`, the external
region-plotting primitive (which may raise, e.g. on a `None` shapefile), the
datacube zipper, and the resolved `self.cache_path`. -/
structure Env where
  binderCache : String → RawCached
  mkTitle : String → String
  readFeather : String → Except PyExc Nat
  plotRegion : Option Nat → String → Except PyExc Vis
  zipDatacube : String → String → ZipOutcome
  cachePath : String

/-- The mutable state of one `CryotempoSelection` instance read and written by
the embedded handlers. `calls` is a ghost log of every call made to the
external `binder.get_cached_data` fetch, used to state the caching claims. -/
structure SelState where
  region_name : String
  region_name_html : String
  glacier_name : Option String
  year : Nat
  rgi_id : String
  oggm_model : String
  lookup : List (String × String)
  data : Option (List (String × Dataset))
  calls : List String
  figure : Vis
  figures : List Vis
  plot_oggm : List Vis
  plot_cryosat : List Vis
  plot_title : String
  artistTitle : String

/-! ## Handlers of the selection component -/

/-- Python truthiness of the `glacier_name` selector value: the selector is
`None` when unset, and `None` and `""` are falsy. -/
def nameFalsy : Option String → Bool
  | none => true
  | some s => s = ""

/-- Default RGI ID substituted for unrecognized glacier names
(`CryotempoSelection.get_rgi_id`, cryotempo_selection.py:311). -/
def default_glacier : String := "RGI60-11.00897"

/-- Derive `CryotempoSelection.get_rgi_id` (cryotempo_selection.py:309-314):
`self.metadata["lookup"].get(glacier_name, default_glacier)`. The selector
value is `none` when unset; the lookup table has string keys, so
`dict.get(None, default)` yields the default. `dict.get` raises no error. -/
def get_rgi_id (lookup : List (String × String)) (glacier_name : Option String) : String :=
  match glacier_name with
  | none => default_glacier
  | some n => (alistGet lookup n).getD default_glacier

/-- Region label computed by `CryotempoSelection.set_region_name`
(cryotempo_selection.py:320-331) from an RGI ID:
`region_id = rgi_id.split("-")[1]`, then the substring tests
`"11." in region_id` and `"06." in region_id`. The index `[1]` raises
`IndexError` when the ID contains no `"-"` (split then yields one element). -/
def regionLabelOfId (rgi_id : String) : Except PyExc String :=
  match (splitOnChar '-' rgi_id.data).get? 1 with
  | none => .error .indexError
  | some seg =>
    if containsSub ("11.").data seg then .ok ("Central Europe")
    else if containsSub ("06.").data seg then .ok ("Iceland")
    else .ok ("")

/-- Run `CryotempoSelection.set_region_name` (cryotempo_selection.py:316-333):
recompute the region label from the ID derived from the current glacier name,
store it in `region_name_html` via `self.param.update`, and return it. -/
def set_region_name (st : SelState) : SelState × Except PyExc String :=
  match regionLabelOfId (get_rgi_id st.lookup st.glacier_name) with
  | .ok lbl => ({st with region_name_html := lbl}, .ok lbl)
  | .error e => (st, .error e)

/-- Run `CryotempoSelection.set_rgi_id` (cryotempo_selection.py:303-307): set
`rgi_id` from the glacier name, then refresh `region_name_html` through
`set_region_name` (whose return value is assigned to the same field again). -/
def set_rgi_id (st : SelState) : SelState × Option PyExc :=
  let st1 := {st with rgi_id := get_rgi_id st.lookup st.glacier_name}
  match set_region_name st1 with
  | (st2, .ok lbl) => ({st2 with region_name_html := lbl}, none)
  | (st2, .error e) => (st2, some e)

/-- Run `CryotempoSelection.set_plot_metadata` (cryotempo_selection.py:190-198):
substitute `"Hintereisferner"` for an empty or unset glacier name, refresh the
region label via `set_region_name`, and render the `<h1>` plot title
`f"{glacier_name}, {self.region_name_html} ({self.year})"`. -/
def set_plot_metadata (st : SelState) : SelState × Option PyExc :=
  let nm := if nameFalsy st.glacier_name then "Hintereisferner" else st.glacier_name.getD ("")
  match set_region_name st with
  | (st1, .ok _) =>
    ({st1 with plot_title :=
        "<h1>" ++ nm ++ ", " ++ st1.region_name_html ++ " (" ++ toString st1.year ++ ")</h1>"},
     none)
  | (st1, .error e) => (st1, some e)

/-- Run `CryotempoSelection.get_cached_data` (cryotempo_selection.py:401-425):
call the external `binder.get_cached_data` (logged in the ghost `calls` field)
and repackage its result, each artifact defaulting to `None` when absent.
The binder key `"runoff"` is stored under `"runoff_data"`. -/
def get_cached_data (env : Env) (st : SelState) (rgi_id : String) : SelState × Dataset :=
  let c := env.binderCache rgi_id
  ({st with calls := st.calls ++ [rgi_id]},
   ⟨c.gdir, c.eolis, c.smb, c.runoff, c.outlines⟩)

/-- Run `CryotempoSelection.plot_dashboard_l1` (cryotempo_selection.py:614-717).
Subscripting reproduces Python: `data["runoff_data"]` on `None` raises
`TypeError`, a missing dict key raises `KeyError`. The four external plot
calls become `Vis` constructors; the `(OGGM + CryoSat)` titles replace the
plain `(OGGM)` titles when the datacube is present. `self.figures` and the
artist title are updated on the state; the assembled `pn.Column` dashboard is
returned. -/
def plot_dashboard_l1 (env : Env) (d : Dataset) (glacier_name : Option String)
    (model_name : String) (st : SelState) : SelState × Except PyExc Vis :=
  match d.runoff_data with
  | none => (st, .error .typeError)
  | some tbl =>
    match alistGet tbl ("Daily_Hugonnet_2000_2020") with
    | none => (st, .error (.keyError ("Daily_Hugonnet_2000_2020")))
    | some runoff =>
      match alistGet runoff ("monthly_runoff") with
      | none => (st, .error (.keyError ("monthly_runoff")))
      | some series =>
        let fig_monthly_runoff := Vis.runoffTimeseries series st.year false 27
        let fig_runoff_cumulative := Vis.runoffTimeseries series st.year true 27
        let fig_daily_mb := Vis.mbComparison d.smb st.year d.eolis d.gdir false model_name
        let fig_cumulative_mb := Vis.mbComparison d.smb st.year d.eolis d.gdir true model_name
        let figures :=
          if d.eolis.isSome then
            [Vis.withTitle fig_daily_mb ("Specific Mass Balance (OGGM + CryoSat)"),
             Vis.withTitle fig_cumulative_mb ("Cumulative Specific Mass Balance (OGGM + CryoSat)"),
             fig_monthly_runoff, fig_runoff_cumulative]
          else
            [Vis.withTitle fig_daily_mb ("Specific Mass Balance (OGGM)"),
             Vis.withTitle fig_cumulative_mb ("Cumulative Specific Mass Balance (OGGM)"),
             fig_monthly_runoff, fig_runoff_cumulative]
        let st1 := {st with figures := figures}
        let st2 := if nameFalsy glacier_name then st1
                   else {st1 with artistTitle := env.mkTitle (st1.glacier_name.getD (""))}
        (st2, .ok (Vis.columnOf
          [Vis.rowOf [Vis.layoutOf (figures.take 2) (some st2.artistTitle)],
           Vis.rowOf [Vis.layoutOf (figures.drop 2) none]]))

/-- Run `CryotempoSelection.plot_dashboard_l2` (cryotempo_selection.py:719-790).
When the datacube is present, building the two CryoSat figures reads
`gdir.get("rgi_area_km2", None)`, which raises `AttributeError` when `gdir` is
`None`. After `self.figures` is set, an empty or unset `glacier_name` falls
back to `gdir.get("name", "")` — again `AttributeError` when `gdir` is `None`.
When the datacube is `None`, the assembled dashboard and `self.figures` are
replaced by the `pn.Column("No CryoSat data available.", name="CryoSat Data")`
placeholder. -/
def plot_dashboard_l2 (env : Env) (d : Dataset) (glacier_name : Option String)
    (st : SelState) : SelState × Except PyExc Vis :=
  let figsE : Except PyExc (List Vis) :=
    match d.eolis with
    | none => .ok []
    | some dc =>
      match d.gdir with
      | none => .error .attributeError
      | some g =>
        let area := alistGet g ("rgi_area_km2")
        .ok [Vis.withTitle (Vis.eolisTimeseries dc true area)
               "Monthly Cumulative Specific Mass Balance (CryoSat)",
             Vis.withTitle (Vis.eolisSmb dc st.year false area)
               "Cumulative Specific Mass Balance (CryoSat)"]
  match figsE with
  | .error e => (st, .error e)
  | .ok figures =>
    let st1 := {st with figures := figures}
    let nameE : Except PyExc String :=
      if nameFalsy glacier_name then
        match d.gdir with
        | none => .error .attributeError
        | some g => .ok ((alistGet g ("name")).getD (""))
      else .ok (glacier_name.getD (""))
    match nameE with
    | .error e => (st1, .error e)
    | .ok nm =>
      let st2 := {st1 with artistTitle := env.mkTitle nm}
      if d.eolis.isSome then
        (st2, .ok (Vis.columnOf [Vis.layoutOf figures (some st2.artistTitle)]))
      else
        ({st2 with figures := [Vis.textPane ("No CryoSat data available.") ("CryoSat Data")]},
         .ok (Vis.textPane ("No CryoSat data available.") ("CryoSat Data")))

/-- Model the second half of `CryotempoSelection.set_plot`
(cryotempo_selection.py:256-266): regenerate the L1 dashboard (stored in
`self.figure`, with `self.figures` copied into the `plot_oggm` pane), then the
L2 dashboard (stored in `self.figure`, with `self.figures` copied into the
`plot_cryosat` pane). An exception leaves the later updates unapplied. -/
def set_plot_render (env : Env) (d : Dataset) (st : SelState) : SelState × Option PyExc :=
  match plot_dashboard_l1 env d st.glacier_name st.oggm_model st with
  | (sa, .error e) => (sa, some e)
  | (sa, .ok dash1) =>
    let sb := {sa with figure := dash1, plot_oggm := sa.figures}
    match plot_dashboard_l2 env d sb.glacier_name sb with
    | (sc, .error e) => (sc, some e)
    | (sc, .ok dash2) =>
      ({sc with figure := dash2, plot_cryosat := sc.figures}, none)

/-- Run `CryotempoSelection.set_plot` (cryotempo_selection.py:242-266): a no-op
while `self.data is None`; otherwise derive the RGI ID from the current
glacier name, fetch and store the dataset only when the ID is not already a
key of the cache map, then hand the cached dataset to `set_plot_render`. -/
def set_plot (env : Env) (st : SelState) : SelState × Option PyExc :=
  match st.data with
  | none => (st, none)
  | some m =>
    let rgi_id := get_rgi_id st.lookup st.glacier_name
    let fetched : SelState × List (String × Dataset) :=
      match alistGet m rgi_id with
      | some _ => (st, m)
      | none =>
        let fd := get_cached_data env st rgi_id
        let m' := alistPut m rgi_id fd.2
        ({fd.1 with data := some m'}, m')
    match alistGet fetched.2 rgi_id with
    | none => (fetched.1, some (.keyError rgi_id))
    | some d => set_plot_render env d fetched.1

/-- Run `CryotempoSelection.set_dashboard_data_cached`
(cryotempo_selection.py:380-399), fired on every `rgi_id` or `glacier_name`
change: initialize the cache map if it is still `None`, then unconditionally
fetch `self.rgi_id` from the binder and store the result, overwriting any
entry already cached under that key. -/
def set_dashboard_data_cached (env : Env) (st : SelState) : SelState :=
  let m := st.data.getD []
  let fd := get_cached_data env st st.rgi_id
  {fd.1 with data := some (alistPut m st.rgi_id fd.2)}

/-- Fire the watchers registered on the `year` parameter, in their declaration
order in the class body: `set_plot_metadata` (line 190) then `set_plot`
(line 242). An exception aborts the remaining watchers. -/
def yearChange (env : Env) (st : SelState) : SelState × Option PyExc :=
  match set_plot_metadata st with
  | (st1, some e) => (st1, some e)
  | (st1, none) => set_plot env st1

/-- Run `CryotempoSelection.get_zipped_datacube`
(cryotempo_selection.py:335-350). `FileNotFoundError` from the external
`streamer.zip_datacube` is caught: a timed error notification is posted at the
bottom-left and `path` is set to `""`; the `finally: return path` then yields
it. On success the archive path is returned. On any other exception the
`finally: return path` reads the never-assigned local `path`, raising
`NameError` in place of the original exception. -/
def get_zipped_datacube (env : Env) (rgi_id : String) (zip_path : String) :
    Except PyExc (String × List Notification) :=
  match env.zipDatacube zip_path rgi_id with
  | .ok p => .ok (p, [])
  | .fileNotFound =>
    .ok ("", [⟨"No datacube available for this glacier.", 3000, "bottom-left"⟩])
  | .otherError => .error .nameError

/-- Build the path `self.cache_path / f"RGI60-{str(region_id).zfill(2)}/{file_name}"`
(cryotempo_selection.py:467-469). -/
def outlinePath (cachePath : String) (region_id : Nat) (file_name : String) : String :=
  cachePath ++ "/RGI60-" ++ zfill 2 (toString region_id) ++ "/" ++ file_name

/-- Run `CryotempoSelection.get_cached_region_outlines`
(cryotempo_selection.py:449-474): read the merged outline shapefile with
`gpd.read_feather`; `FileNotFoundError` is caught and `None` is returned; any
other exception propagates to the caller. -/
def get_cached_region_outlines (env : Env) (region_id : Nat) (file_name : String) :
    Except PyExc (Option Nat) :=
  match env.readFeather (outlinePath env.cachePath region_id file_name) with
  | .ok s => .ok (some s)
  | .error .fileNotFound => .ok none
  | .error e => .error e

/-- Model the body of the `try` block of `plot_selection_map`
(cryotempo_selection.py:494-499): `region_id = int(rgi_id[6:8])`, the outline
read, then the external `plot_region_with_glacier` call. -/
def plot_selection_map_try (env : Env) (rgi_id : String) : Except PyExc Vis := do
  let region_id ← pyIntDigits (pySlice rgi_id 6 8)
  let shapefile ← get_cached_region_outlines env region_id ("glacier_outlines.shp")
  env.plotRegion shapefile rgi_id

set_option linter.unusedVariables false in
/-- Run `CryotempoSelection.plot_selection_map` (cryotempo_selection.py:476-501):
the bare `except:` replaces any exception from the body with the empty overlay
`hv.Overlay([])`. The `data` argument is accepted but unused, as in the
source. -/
def plot_selection_map (env : Env) (data : Dataset) (rgi_id : String) : Vis :=
  match plot_selection_map_try env rgi_id with
  | .ok fig => fig
  | .error _ => Vis.overlay []

/-! ## The HTTP frontend (app.py) -/

/-- Record `FastAPI(root_path="/dtcgweb")` from app.py:35. -/
def root_path : String := "/dtcgweb"

/-- An HTTP response produced by the routes of app.py. -/
inductive HttpResponse where
  | redirect (url : String) (status : Nat)
  | fileAttachment (path : String) (filename : String)
  | templatePage (template : String) (status : Nat)
  | dashboardApp (title : String)
deriving DecidableEq, Repr

/-- Dispatch a GET request against the route table of app.py: the root
redirect (`RedirectResponse` defaults to HTTP 307), the three static-file
routes served through `get_static_file` with attachment headers, the panel
application mounted at `"/app"`, and — for every unmatched path — the 404
exception handler `get_404_handler` (app.py:96-99), which returns
`templates.TemplateResponse("404.html", {"request": request})` without a
`status_code` argument, so the response carries the `TemplateResponse` default
status 200. -/
def handle_request (path : String) : HttpResponse :=
  if path = "/" then .redirect (root_path ++ "/app") 307
  else if path = "/favicon.ico" then
    .fileAttachment (root_path ++ "/static/favicon.ico") "favicon.ico"
  else if path = "/static/assets/css/404style.css" then
    .fileAttachment (root_path ++ "/static/assets/css/404style.css") "assets/css/404style.css"
  else if path = "/logo.png" then
    .fileAttachment (root_path ++ "/static/img/dtc_logo.png") "img/dtc_logo.png"
  else if path = "/app" then .dashboardApp ("DTCG Dashboard")
  else .templatePage ("404.html") 200

/-! ## Spec-side formulations and helper lemmas -/

/-- Apply the region if-chain of `set_region_name` to a given character
segment (shared by the claim-side and amended formulations of C2). -/
def labelOfSegment (seg : List Char) : String :=
  if containsSub ("11.").data seg then "Central Europe"
  else if containsSub ("06.").data seg then "Iceland"
  else ""

/-- Take the suffix of `s` strictly after the first occurrence of `sep`
(`none` when `sep` does not occur). -/
def afterFirst (sep : Char) : List Char → Option (List Char)
  | [] => none
  | c :: t => if c = sep then some t else afterFirst sep t

/-- Take the prefix of `s` up to (excluding) the first occurrence of `sep`. -/
def upToNext (sep : Char) : List Char → List Char
  | [] => []
  | c :: t => if c = sep then [] else c :: upToNext sep t

/-- The region rule exactly as claim C2 words it: the label is determined by
everything after the FIRST `"-"` in the identifier. Stated from the claim for
comparison with `regionLabelOfId`, which follows the source. -/
def regionRuleFromClaim (rgi_id : String) : String :=
  labelOfSegment ((afterFirst '-' rgi_id.data).getD [])

/-- The segment of `s` strictly between the first `sep` and the next `sep`
(or the end of the string), defined independently of `splitOnChar`. -/
def segmentAfterFirst (sep : Char) (s : List Char) : List Char :=
  match afterFirst sep s with
  | none => []
  | some rest => upToNext sep rest

theorem splitOnChar_head_eq (sep : Char) (s : List Char) :
    (splitOnChar sep s).head? = some (upToNext sep s) := by
  induction s with
  | nil => rfl
  | cons c t ih =>
    by_cases hc : c = sep
    · simp [splitOnChar, upToNext, hc]
    · cases hsp : splitOnChar sep t with
      | nil => rw [hsp] at ih; simp at ih
      | cons h r =>
        rw [hsp] at ih
        simp only [List.head?, Option.some.injEq] at ih
        simp [splitOnChar, upToNext, hc, hsp, ih]

theorem splitOnChar_of_not_mem (sep : Char) (s : List Char) (h : sep ∉ s) :
    splitOnChar sep s = [s] := by
  induction s with
  | nil => rfl
  | cons c t ih =>
    have h1 : ¬ c = sep := fun hh => h (hh ▸ List.mem_cons_self c t)
    have h2 : sep ∉ t := fun hh => h (List.mem_cons_of_mem c hh)
    simp [splitOnChar, h1, ih h2]

theorem splitOnChar_get_one (sep : Char) (s : List Char) (h : sep ∈ s) :
    (splitOnChar sep s).get? 1 = some (segmentAfterFirst sep s) := by
  induction s with
  | nil => cases h
  | cons c t ih =>
    by_cases hc : c = sep
    · have hh := splitOnChar_head_eq sep t
      cases hsp : splitOnChar sep t with
      | nil => rw [hsp] at hh; simp at hh
      | cons h0 r =>
        rw [hsp] at hh
        simp only [List.head?, Option.some.injEq] at hh
        simp [splitOnChar, hc, hsp, segmentAfterFirst, afterFirst, hh]
    · have hmem : sep ∈ t := by
        rcases List.mem_cons.mp h with h0 | h0
        · exact absurd h0.symm hc
        · exact h0
      cases hsp : splitOnChar sep t with
      | nil =>
        have hh := splitOnChar_head_eq sep t
        rw [hsp] at hh; simp at hh
      | cons h0 r =>
        have iht := ih hmem
        rw [hsp] at iht
        have hseg : segmentAfterFirst sep (c :: t) = segmentAfterFirst sep t := by
          simp [segmentAfterFirst, afterFirst, hc]
        simp only [splitOnChar, if_neg hc, hsp, hseg]
        simpa using iht

/-! ## Claims about identifier derivation (C1, C9) -/

/-- C1: for every glacier name that is not a key of the metadata lookup
table, `get_rgi_id` returns the fixed default glacier identifier
"RGI60-11.00897"; the embedding of `dict.get` is total, so no error is
raised. -/
theorem claim1_unknown_name_defaults (lookup : List (String × String)) (name : String)
    (h : alistGet lookup name = none) :
    get_rgi_id lookup (some name) = "RGI60-11.00897" := by
  simp [get_rgi_id, h, default_glacier]

/-- Witness for C1: the empty lookup table and a concrete unknown name. -/
theorem claim1_witness :
    alistGet ([] : List (String × String)) ("Unknown Glacier") = none ∧
    get_rgi_id [] (some ("Unknown Glacier")) = "RGI60-11.00897" :=
  ⟨rfl, claim1_unknown_name_defaults [] ("Unknown Glacier") rfl⟩

/-- C9: identifier derivation is idempotent. Running the `set_rgi_id` handler
(which derives the identifier via `get_rgi_id` and refreshes the region
label) sets `rgi_id` to the identifier derived from the unchanged glacier
name, and running it a second time on the resulting state returns exactly the
same state and outcome. -/
theorem claim9_set_rgi_id_idempotent (st : SelState) :
    (set_rgi_id st).1.rgi_id = get_rgi_id st.lookup st.glacier_name ∧
    set_rgi_id (set_rgi_id st).1 = set_rgi_id st := by
  unfold set_rgi_id set_region_name
  cases hR : regionLabelOfId (get_rgi_id st.lookup st.glacier_name) with
  | ok lbl => simp [hR]
  | error e => simp [hR]

/-! ## Claim C2: region label derivation -/

/-- C2 is false as stated: for the identifier "RGI60-99-11.00001" the part
after the first "-" contains the substring "11.", so the claim prescribes the
label "Central Europe", but the code takes `split("-")[1]`, the segment
"99" between the first and second dash, and yields the empty label. -/
theorem claim2_counterexample :
    regionLabelOfId ("RGI60-99-11.00001") = .ok ("") ∧
    regionRuleFromClaim ("RGI60-99-11.00001") = "Central Europe" := by
  constructor <;> rfl

/-- C2 amended: for every glacier identifier containing at least one "-", the
derived region label is determined by the segment of the identifier strictly
between the first "-" and the following "-" (or the end): if it contains
"11." the label is "Central Europe", otherwise if it contains "06." it is
"Iceland", otherwise it is the empty string. For an identifier containing no
"-", the derivation raises IndexError. -/
theorem claim2_second_segment (rgi_id : String) :
    ('-' ∈ rgi_id.data →
      regionLabelOfId rgi_id = .ok (labelOfSegment (segmentAfterFirst '-' rgi_id.data))) ∧
    ('-' ∉ rgi_id.data → regionLabelOfId rgi_id = .error .indexError) := by
  constructor
  · intro h
    have h1 := splitOnChar_get_one '-' rgi_id.data h
    simp only [regionLabelOfId, labelOfSegment, h1]
    split_ifs <;> rfl
  · intro h
    have h1 := splitOnChar_of_not_mem '-' rgi_id.data h
    simp [regionLabelOfId, h1]

/-- Witness for C2 (amended), at a dashed identifier (which the amended rule
maps to "Central Europe") and a dash-free identifier (IndexError). -/
theorem claim2_witness :
    ('-' ∈ ("RGI60-11.00897").data ∧
      regionLabelOfId ("RGI60-11.00897") =
        .ok (labelOfSegment (segmentAfterFirst '-' ("RGI60-11.00897").data))) ∧
    ('-' ∉ ("RGI6011").data ∧ regionLabelOfId ("RGI6011") = .error .indexError) :=
  ⟨⟨by decide, (claim2_second_segment ("RGI60-11.00897")).1 (by decide)⟩,
   ⟨by decide, (claim2_second_segment ("RGI6011")).2 (by decide)⟩⟩

/-! ## Claim C6: HTTP routes -/

/-- C6 as evidence of a code bug: `GET /` does redirect to the dashboard path
(the root path "/dtcgweb" followed by "/app"), but an unmatched path is
answered with the page rendered from "404.html" at HTTP status 200, because
`get_404_handler` passes no `status_code` to `TemplateResponse` and the
default is 200 — not the 404 the claim (and the purpose of a handler
registered for 404 errors) states. -/
theorem claim6_routes :
    handle_request ("/") = .redirect ("/dtcgweb/app") 307 ∧
    handle_request ("/no-such-page") = .templatePage ("404.html") 200 := by
  constructor <;> rfl

/-! ## Claim C7: zipped-datacube download -/

/-- C7: when the external archiver reports the remote archive missing
(FileNotFoundError), `get_zipped_datacube` catches exactly that condition,
posts a timed (3000 ms) user-visible error notification, and returns the
empty string instead of raising; on success it returns the archive path. -/
theorem claim7_zip_archive_missing (env : Env) (rgi_id zip_path : String) :
    (env.zipDatacube zip_path rgi_id = .fileNotFound →
      get_zipped_datacube env rgi_id zip_path =
        .ok ("", [⟨"No datacube available for this glacier.", 3000, "bottom-left"⟩])) ∧
    (∀ p, env.zipDatacube zip_path rgi_id = .ok p →
      get_zipped_datacube env rgi_id zip_path = .ok (p, [])) := by
  constructor
  · intro h
    unfold get_zipped_datacube
    rw [h]
  · intro p h
    unfold get_zipped_datacube
    rw [h]

/-- Environment whose archiver always reports a missing archive. -/
def envZipMissing : Env :=
  ⟨fun _ => ⟨none, none, none, none, none⟩, fun n => n,
   fun _ => .error .fileNotFound, fun _ _ => .ok (Vis.overlay []),
   fun _ _ => .fileNotFound, "cache"⟩

/-- Environment whose archiver always succeeds with a fixed path. -/
def envZipOk : Env :=
  ⟨fun _ => ⟨none, none, none, none, none⟩, fun n => n,
   fun _ => .error .fileNotFound, fun _ _ => .ok (Vis.overlay []),
   fun _ _ => .ok ("archive.zarr.zip"), "cache"⟩

/-- Witness for C7, exercising both the missing-archive branch and the
success branch at concrete inputs. -/
theorem claim7_witness :
    (envZipMissing.zipDatacube ("zp") ("RGI60-06.00001") = .fileNotFound ∧
      get_zipped_datacube envZipMissing ("RGI60-06.00001") ("zp") =
        .ok ("", [⟨"No datacube available for this glacier.", 3000, "bottom-left"⟩])) ∧
    (envZipOk.zipDatacube ("zp") ("RGI60-06.00001") = .ok ("archive.zarr.zip") ∧
      get_zipped_datacube envZipOk ("RGI60-06.00001") ("zp") = .ok ("archive.zarr.zip", [])) :=
  ⟨⟨rfl, (claim7_zip_archive_missing envZipMissing ("RGI60-06.00001") ("zp")).1 rfl⟩,
   ⟨rfl, (claim7_zip_archive_missing envZipOk ("RGI60-06.00001") ("zp")).2 ("archive.zarr.zip") rfl⟩⟩

/-! ## Frame lemmas: the plotting routines leave the cache and call log alone -/

/-- The dataset assembled from one external cache fetch for `rgi_id`. -/
def fetchedDataset (env : Env) (rgi_id : String) : Dataset :=
  let c := env.binderCache rgi_id
  ⟨c.gdir, c.eolis, c.smb, c.runoff, c.outlines⟩

theorem plot_dashboard_l1_frame (env : Env) (d : Dataset) (gn : Option String)
    (mn : String) (st : SelState) :
    (plot_dashboard_l1 env d gn mn st).1.calls = st.calls ∧
    (plot_dashboard_l1 env d gn mn st).1.data = st.data := by
  cases hrd : d.runoff_data with
  | none => simp [plot_dashboard_l1, hrd]
  | some tbl =>
    cases hdh : alistGet tbl ("Daily_Hugonnet_2000_2020") with
    | none => simp [plot_dashboard_l1, hrd, hdh]
    | some runoff =>
      cases hmr : alistGet runoff ("monthly_runoff") with
      | none => simp [plot_dashboard_l1, hrd, hdh, hmr]
      | some series =>
        by_cases hn : nameFalsy gn
        · simp [plot_dashboard_l1, hrd, hdh, hmr, hn]
        · simp [plot_dashboard_l1, hrd, hdh, hmr, hn]

theorem plot_dashboard_l2_frame (env : Env) (d : Dataset) (gn : Option String)
    (st : SelState) :
    (plot_dashboard_l2 env d gn st).1.calls = st.calls ∧
    (plot_dashboard_l2 env d gn st).1.data = st.data := by
  cases he : d.eolis with
  | none =>
    cases hg : d.gdir with
    | none =>
      by_cases hn : nameFalsy gn
      · simp [plot_dashboard_l2, he, hg, hn]
      · simp [plot_dashboard_l2, he, hg, hn]
    | some g =>
      by_cases hn : nameFalsy gn
      · simp [plot_dashboard_l2, he, hg, hn]
      · simp [plot_dashboard_l2, he, hg, hn]
  | some dc =>
    cases hg : d.gdir with
    | none => simp [plot_dashboard_l2, he, hg]
    | some g =>
      by_cases hn : nameFalsy gn
      · simp [plot_dashboard_l2, he, hg, hn]
      · simp [plot_dashboard_l2, he, hg, hn]

theorem set_plot_render_frame (env : Env) (d : Dataset) (st : SelState) :
    (set_plot_render env d st).1.calls = st.calls ∧
    (set_plot_render env d st).1.data = st.data := by
  cases hl1 : plot_dashboard_l1 env d st.glacier_name st.oggm_model st with
  | mk sa r1 =>
    obtain ⟨ha1, ha2⟩ := plot_dashboard_l1_frame env d st.glacier_name st.oggm_model st
    rw [hl1] at ha1 ha2
    simp only at ha1 ha2
    cases r1 with
    | error e =>
      simp only [set_plot_render, hl1]
      exact ⟨ha1, ha2⟩
    | ok dash1 =>
      cases hl2 : plot_dashboard_l2 env d sa.glacier_name
          {sa with figure := dash1, plot_oggm := sa.figures} with
      | mk sc r2 =>
        obtain ⟨hb1, hb2⟩ := plot_dashboard_l2_frame env d sa.glacier_name
          {sa with figure := dash1, plot_oggm := sa.figures}
        rw [hl2] at hb1 hb2
        simp only at hb1 hb2
        cases r2 with
        | error e =>
          simp only [set_plot_render, hl1, hl2]
          exact ⟨hb1.trans ha1, hb2.trans ha2⟩
        | ok dash2 =>
          simp only [set_plot_render, hl1, hl2]
          exact ⟨hb1.trans ha1, hb2.trans ha2⟩

/-- Helper: on a cache hit, `set_plot` leaves the call log and the cache map
unchanged. -/
theorem set_plot_hit_frame (env : Env) (st : SelState)
    (m : List (String × Dataset)) (d : Dataset)
    (hdata : st.data = some m)
    (hhit : alistGet m (get_rgi_id st.lookup st.glacier_name) = some d) :
    (set_plot env st).1.calls = st.calls ∧ (set_plot env st).1.data = st.data := by
  obtain ⟨h1, h2⟩ := set_plot_render_frame env d st
  have hmain : set_plot env st = set_plot_render env d st := by
    simp only [set_plot, hdata, hhit]
  rw [hmain]
  exact ⟨h1, h2⟩

/-- Helper: on a cache miss, `set_plot` makes exactly one external fetch and
stores the fetched dataset under the derived identifier. -/
theorem set_plot_miss_store (env : Env) (st : SelState)
    (m : List (String × Dataset))
    (hdata : st.data = some m)
    (hmiss : alistGet m (get_rgi_id st.lookup st.glacier_name) = none) :
    (set_plot env st).1.calls = st.calls ++ [get_rgi_id st.lookup st.glacier_name] ∧
    (set_plot env st).1.data =
      some (alistPut m (get_rgi_id st.lookup st.glacier_name)
        (fetchedDataset env (get_rgi_id st.lookup st.glacier_name))) := by
  have hget : ∀ (dn : Dataset),
      alistGet (alistPut m (get_rgi_id st.lookup st.glacier_name) dn)
        (get_rgi_id st.lookup st.glacier_name) = some dn := by
    intro dn
    clear hdata
    induction m with
    | nil => simp [alistPut, alistGet]
    | cons kv t ih =>
      cases kv with
      | mk k v =>
        by_cases hk : k = get_rgi_id st.lookup st.glacier_name
        · rw [alistGet] at hmiss
          simp [hk] at hmiss
        · rw [alistGet] at hmiss
          simp only [hk, if_false] at hmiss
          simp [alistPut, alistGet, hk, ih hmiss]
  have hmain : set_plot env st =
      set_plot_render env (fetchedDataset env (get_rgi_id st.lookup st.glacier_name))
        {st with
          calls := st.calls ++ [get_rgi_id st.lookup st.glacier_name],
          data := some (alistPut m (get_rgi_id st.lookup st.glacier_name)
            (fetchedDataset env (get_rgi_id st.lookup st.glacier_name)))} := by
    simp only [set_plot, hdata, hmiss, get_cached_data, fetchedDataset, hget]
  rw [hmain]
  obtain ⟨h1, h2⟩ := set_plot_render_frame env
    (fetchedDataset env (get_rgi_id st.lookup st.glacier_name))
    {st with
      calls := st.calls ++ [get_rgi_id st.lookup st.glacier_name],
      data := some (alistPut m (get_rgi_id st.lookup st.glacier_name)
        (fetchedDataset env (get_rgi_id st.lookup st.glacier_name)))}
  simp only at h1 h2
  exact ⟨h1, h2⟩

/-! ## Claim C3: dataset caching discipline -/

/-- C3 amended: `set_plot` does implement get-or-fetch — on a cache hit it
makes no external fetch and leaves the cache map unchanged, and on a miss it
fetches exactly once and stores the result under the derived identifier — but
`set_dashboard_data_cached`, fired on every `rgi_id`/`glacier_name` change,
calls the external fetch unconditionally and overwrites the entry, so a
glacier re-selected within one session is fetched again. -/
theorem claim3_cache_discipline :
    (∀ (env : Env) (st : SelState) (m : List (String × Dataset)) (d : Dataset),
       st.data = some m →
       alistGet m (get_rgi_id st.lookup st.glacier_name) = some d →
       (set_plot env st).1.calls = st.calls ∧ (set_plot env st).1.data = st.data) ∧
    (∀ (env : Env) (st : SelState) (m : List (String × Dataset)),
       st.data = some m →
       alistGet m (get_rgi_id st.lookup st.glacier_name) = none →
       (set_plot env st).1.calls = st.calls ++ [get_rgi_id st.lookup st.glacier_name] ∧
       (set_plot env st).1.data =
         some (alistPut m (get_rgi_id st.lookup st.glacier_name)
           (fetchedDataset env (get_rgi_id st.lookup st.glacier_name)))) ∧
    (∀ (env : Env) (st : SelState),
       (set_dashboard_data_cached env st).calls = st.calls ++ [st.rgi_id]) := by
  refine ⟨?hit, ?miss, ?always⟩
  case hit =>
    intro env st m d hdata hhit
    exact set_plot_hit_frame env st m d hdata hhit
  case miss =>
    intro env st m hdata hmiss
    exact set_plot_miss_store env st m hdata hmiss
  case always =>
    intro env st
    simp [set_dashboard_data_cached, get_cached_data]

/-! ## Concrete test fixtures -/

/-- The dataset of a glacier for which the cache holds no artifact at all
(every `cached_data.get(...)` defaulted to `None`). -/
def dsAllNone : Dataset := ⟨none, none, none, none, none⟩

/-- A binder-cache result holding only a mass-balance series token. -/
def rawSmb7 : RawCached := ⟨none, none, some 7, none, none⟩

/-- A concrete environment: the binder cache always returns `rawSmb7`, the
outline file is missing, the external region plot succeeds, and the archiver
reports a missing archive. -/
def envTest : Env :=
  ⟨fun _ => rawSmb7, fun n => n, fun _ => .error .fileNotFound,
   fun _ _ => .ok (Vis.overlay []), fun _ _ => .fileNotFound, "cache"⟩

/-- A concrete session state right after construction: unset glacier name,
default identifier, the one-entry lookup table, no cache map yet. -/
def stBase : SelState :=
  ⟨"Central Europe", "Central Europe", none, 2017, "RGI60-11.00897", "DailyTIModel",
   [("Hintereisferner", "RGI60-11.00897")], none, [], Vis.overlay [], [], [], [], "", ""⟩

/-- The base state with the default glacier already cached. -/
def stHit : SelState :=
  {stBase with data := some [("RGI60-11.00897", dsAllNone)]}

/-- The base state with an initialized but empty cache map. -/
def stMiss : SelState := {stBase with data := some []}

/-- C3 is false as stated: in `stHit` the current identifier is already a key
of the Data Cache Map, yet firing `set_dashboard_data_cached` (which runs on
every glacier re-selection) performs another external fetch and overwrites the
cached dataset instead of returning it. -/
theorem claim3_counterexample :
    alistGet [("RGI60-11.00897", dsAllNone)] stHit.rgi_id = some dsAllNone ∧
    (set_dashboard_data_cached envTest stHit).calls = stHit.calls ++ [stHit.rgi_id] ∧
    (set_dashboard_data_cached envTest stHit).data ≠ stHit.data := by
  refine ⟨rfl, rfl, ?_⟩
  decide

/-- Witness for C3 (amended), exercising the cache-hit branch of `set_plot`,
the cache-miss branch of `set_plot`, and the unconditional fetch of
`set_dashboard_data_cached`, each at concrete inputs. -/
theorem claim3_witness :
    (stHit.data = some [("RGI60-11.00897", dsAllNone)] ∧
      alistGet [("RGI60-11.00897", dsAllNone)] (get_rgi_id stHit.lookup stHit.glacier_name) =
        some dsAllNone ∧
      ((set_plot envTest stHit).1.calls = stHit.calls ∧
       (set_plot envTest stHit).1.data = stHit.data)) ∧
    (stMiss.data = some [] ∧
      ((set_plot envTest stMiss).1.calls =
         stMiss.calls ++ [get_rgi_id stMiss.lookup stMiss.glacier_name] ∧
       (set_plot envTest stMiss).1.data =
         some (alistPut [] (get_rgi_id stMiss.lookup stMiss.glacier_name)
           (fetchedDataset envTest (get_rgi_id stMiss.lookup stMiss.glacier_name))))) ∧
    (set_dashboard_data_cached envTest stHit).calls = stHit.calls ++ [stHit.rgi_id] :=
  ⟨⟨rfl, rfl,
     (claim3_cache_discipline).1 envTest stHit [("RGI60-11.00897", dsAllNone)] dsAllNone rfl rfl⟩,
   ⟨rfl, (claim3_cache_discipline).2.1 envTest stMiss [] rfl rfl⟩,
   (claim3_cache_discipline).2.2 envTest stHit⟩

/-! ## Claim C4: missing datacube placeholder -/

/-- C4 is false as stated: with the elevation-change cube `None`, an unset
glacier name, and a dataset whose glacier directory is also `None` (the
documented default for an unavailable artifact), `plot_dashboard_l2` raises
AttributeError from the `gdir.get("name", "")` fallback before reaching the
placeholder branch. -/
theorem claim4_counterexample :
    dsAllNone.eolis = none ∧
    (plot_dashboard_l2 envTest dsAllNone none stBase).2 = .error .attributeError :=
  ⟨rfl, rfl⟩

/-- C4 amended: whenever the fetched dataset has no elevation-change cube and
additionally a non-empty glacier name is supplied or the glacier directory is
present, `plot_dashboard_l2` renders the literal placeholder
"No CryoSat data available." (both as the returned pane and as the stored
figure list) instead of an empty chart, and raises nothing; in the remaining
case — empty or unset name together with a `None` glacier directory — the
`gdir.get("name", "")` fallback raises AttributeError. -/
theorem claim4_placeholder (env : Env) (d : Dataset) (glacier_name : Option String)
    (st : SelState) (he : d.eolis = none)
    (hok : nameFalsy glacier_name = false ∨ d.gdir ≠ none) :
    (plot_dashboard_l2 env d glacier_name st).2 =
      .ok (Vis.textPane ("No CryoSat data available.") ("CryoSat Data")) ∧
    (plot_dashboard_l2 env d glacier_name st).1.figures =
      [Vis.textPane ("No CryoSat data available.") ("CryoSat Data")] := by
  rcases hok with h | h
  · simp [plot_dashboard_l2, he, h]
  · cases hg : d.gdir with
    | none => exact absurd hg h
    | some g =>
      by_cases hn : nameFalsy glacier_name
      · simp [plot_dashboard_l2, he, hg, hn]
      · simp [plot_dashboard_l2, he, hg, hn]

/-- Witness for C4 (amended) at a concrete dataset with no datacube and a
non-empty glacier name. -/
theorem claim4_witness :
    dsAllNone.eolis = none ∧
    nameFalsy (some ("Hintereisferner")) = false ∧
    ((plot_dashboard_l2 envTest dsAllNone (some ("Hintereisferner")) stBase).2 =
       .ok (Vis.textPane ("No CryoSat data available.") ("CryoSat Data")) ∧
     (plot_dashboard_l2 envTest dsAllNone (some ("Hintereisferner")) stBase).1.figures =
       [Vis.textPane ("No CryoSat data available.") ("CryoSat Data")]) :=
  ⟨rfl, rfl,
   claim4_placeholder envTest dsAllNone (some ("Hintereisferner")) stBase rfl (Or.inl rfl)⟩

/-! ## Claim C8: the selection map never raises -/

/-- C8: the selection-map path never raises. For every environment and input,
`plot_selection_map` either returns the figure produced by the try-block body
or — on any exception in that body — the empty overlay; and a missing
region-outline shapefile is not an exception of its own:
`get_cached_region_outlines` turns FileNotFoundError into a `None` result. -/
theorem claim8_selection_map_total :
    (∀ (env : Env) (data : Dataset) (rgi_id : String),
       (∃ f, plot_selection_map_try env rgi_id = .ok f ∧
          plot_selection_map env data rgi_id = f) ∨
       plot_selection_map env data rgi_id = Vis.overlay []) ∧
    (∀ (env : Env) (region_id : Nat) (file_name : String),
       env.readFeather (outlinePath env.cachePath region_id file_name) =
         .error .fileNotFound →
       get_cached_region_outlines env region_id file_name = .ok none) := by
  constructor
  · intro env data rgi_id
    cases htry : plot_selection_map_try env rgi_id with
    | ok f => exact Or.inl ⟨f, rfl, by simp [plot_selection_map, htry]⟩
    | error e => exact Or.inr (by simp [plot_selection_map, htry])
  · intro env region_id file_name h
    simp [get_cached_region_outlines, h]

/-- Witness for C8 at a concrete environment whose outline file is missing. -/
theorem claim8_witness :
    ((∃ f, plot_selection_map_try envTest ("RGI60-11.00897") = .ok f ∧
        plot_selection_map envTest dsAllNone ("RGI60-11.00897") = f) ∨
      plot_selection_map envTest dsAllNone ("RGI60-11.00897") = Vis.overlay []) ∧
    (envTest.readFeather (outlinePath envTest.cachePath 11 ("glacier_outlines.shp")) =
       .error .fileNotFound ∧
     get_cached_region_outlines envTest 11 ("glacier_outlines.shp") = .ok none) :=
  ⟨(claim8_selection_map_total).1 envTest dsAllNone ("RGI60-11.00897"),
   rfl, (claim8_selection_map_total).2 envTest 11 ("glacier_outlines.shp") rfl⟩

/-! ## Claim C10: plot title fallback -/

/-- C10: whenever the glacier-name field is empty or unset,
`set_plot_metadata` substitutes the literal name "Hintereisferner" into the
displayed `<h1>` plot title; for a non-empty glacier name the title uses that
name; in both cases the title carries the region label freshly derived from
the identifier of the current glacier name, and the reference year. Stated
for every run of the handler that completes without an exception. -/
theorem claim10_title_fallback (st : SelState) :
    (nameFalsy st.glacier_name = true → (set_plot_metadata st).2 = none →
      (set_plot_metadata st).1.plot_title =
        "<h1>" ++ "Hintereisferner" ++ ", " ++ (set_plot_metadata st).1.region_name_html ++
          " (" ++ toString st.year ++ ")</h1>" ∧
      regionLabelOfId (get_rgi_id st.lookup st.glacier_name) =
        .ok ((set_plot_metadata st).1.region_name_html)) ∧
    (∀ n, st.glacier_name = some n → ¬ n = "" → (set_plot_metadata st).2 = none →
      (set_plot_metadata st).1.plot_title =
        "<h1>" ++ n ++ ", " ++ (set_plot_metadata st).1.region_name_html ++
          " (" ++ toString st.year ++ ")</h1>" ∧
      regionLabelOfId (get_rgi_id st.lookup st.glacier_name) =
        .ok ((set_plot_metadata st).1.region_name_html)) := by
  cases hR : regionLabelOfId (get_rgi_id st.lookup st.glacier_name) with
  | error e =>
    constructor
    · intro hf hok
      exfalso
      simp [set_plot_metadata, set_region_name, hR] at hok
    · intro n hn hne hok
      exfalso
      simp [set_plot_metadata, set_region_name, hR] at hok
  | ok lbl =>
    constructor
    · intro hf hok
      constructor
      · simp [set_plot_metadata, set_region_name, hR, hf]
      · simp [set_plot_metadata, set_region_name, hR, hf]
    · intro n hn hne hok
      have hR2 : regionLabelOfId (get_rgi_id st.lookup (some n)) = .ok lbl := by
        rw [← hn]; exact hR
      have hf2 : nameFalsy (some n) = false := by simp [nameFalsy, hne]
      constructor
      · simp [set_plot_metadata, set_region_name, hn, hR2, hf2]
      · simp [set_plot_metadata, set_region_name, hn, hR2, hf2]

/-- Witness for C10 at the base state, whose glacier name is unset and whose
derived identifier yields the label "Central Europe". -/
theorem claim10_witness :
    nameFalsy stBase.glacier_name = true ∧
    (set_plot_metadata stBase).2 = none ∧
    ((set_plot_metadata stBase).1.plot_title =
       "<h1>" ++ "Hintereisferner" ++ ", " ++ (set_plot_metadata stBase).1.region_name_html ++
         " (" ++ toString stBase.year ++ ")</h1>" ∧
     regionLabelOfId (get_rgi_id stBase.lookup stBase.glacier_name) =
       .ok ((set_plot_metadata stBase).1.region_name_html)) :=
  ⟨rfl, rfl, (claim10_title_fallback stBase).1 rfl rfl⟩

/-! ## Claim C5: year changes re-render without refetching -/

theorem set_plot_metadata_frame (st : SelState) :
    (set_plot_metadata st).1.calls = st.calls ∧
    (set_plot_metadata st).1.data = st.data ∧
    (set_plot_metadata st).1.lookup = st.lookup ∧
    (set_plot_metadata st).1.glacier_name = st.glacier_name := by
  cases hR : regionLabelOfId (get_rgi_id st.lookup st.glacier_name) with
  | ok lbl => simp [set_plot_metadata, set_region_name, hR]
  | error e => simp [set_plot_metadata, set_region_name, hR]

/-- The L1 figure list that `plot_dashboard_l1` computes from a cached
dataset, a reference year, a model name, and the monthly-runoff series. -/
def l1Figures (d : Dataset) (year : Nat) (model : String) (series : Nat) : List Vis :=
  if d.eolis.isSome then
    [Vis.withTitle (Vis.mbComparison d.smb year d.eolis d.gdir false model)
       ("Specific Mass Balance (OGGM + CryoSat)"),
     Vis.withTitle (Vis.mbComparison d.smb year d.eolis d.gdir true model)
       ("Cumulative Specific Mass Balance (OGGM + CryoSat)"),
     Vis.runoffTimeseries series year false 27,
     Vis.runoffTimeseries series year true 27]
  else
    [Vis.withTitle (Vis.mbComparison d.smb year d.eolis d.gdir false model)
       ("Specific Mass Balance (OGGM)"),
     Vis.withTitle (Vis.mbComparison d.smb year d.eolis d.gdir true model)
       ("Cumulative Specific Mass Balance (OGGM)"),
     Vis.runoffTimeseries series year false 27,
     Vis.runoffTimeseries series year true 27]

/-- The L2 figure list that `plot_dashboard_l2` stores for a cached dataset
and a reference year (the placeholder pane when the datacube is absent). -/
def l2Figures (d : Dataset) (year : Nat) : List Vis :=
  match d.eolis with
  | none => [Vis.textPane ("No CryoSat data available.") ("CryoSat Data")]
  | some dc =>
    match d.gdir with
    | none => []
    | some g =>
      [Vis.withTitle (Vis.eolisTimeseries dc true (alistGet g ("rgi_area_km2")))
         ("Monthly Cumulative Specific Mass Balance (CryoSat)"),
       Vis.withTitle (Vis.eolisSmb dc year false (alistGet g ("rgi_area_km2")))
         ("Cumulative Specific Mass Balance (CryoSat)")]

/-- C5 amended: with the current identifier already cached, a change of the
reference year (which fires `set_plot_metadata` then `set_plot`) never touches
the Data Cache Map and performs no external fetch — in every case, even when
figure regeneration raises; and when the cached dataset is complete enough to
render (runoff table with the expected keys, a non-empty glacier name whose
derived identifier contains a dash, and a glacier directory whenever the
datacube is present), the run raises nothing and the `plot_oggm` and
`plot_cryosat` panes are regenerated from the cached dataset at the current
reference year. -/
theorem claim5_year_change_no_refetch :
    (∀ (env : Env) (st : SelState) (m : List (String × Dataset)) (d : Dataset),
       st.data = some m →
       alistGet m (get_rgi_id st.lookup st.glacier_name) = some d →
       (yearChange env st).1.data = st.data ∧ (yearChange env st).1.calls = st.calls) ∧
    (∀ (env : Env) (st : SelState) (m : List (String × Dataset)) (d : Dataset)
       (tbl : List (String × List (String × Nat))) (runoff : List (String × Nat))
       (series : Nat) (n lbl : String),
       st.data = some m →
       alistGet m (get_rgi_id st.lookup st.glacier_name) = some d →
       d.runoff_data = some tbl →
       alistGet tbl ("Daily_Hugonnet_2000_2020") = some runoff →
       alistGet runoff ("monthly_runoff") = some series →
       st.glacier_name = some n →
       ¬ n = "" →
       regionLabelOfId (get_rgi_id st.lookup st.glacier_name) = .ok lbl →
       (d.eolis = none ∨ d.gdir ≠ none) →
       (yearChange env st).2 = none ∧
       (yearChange env st).1.plot_oggm = l1Figures d st.year st.oggm_model series ∧
       (yearChange env st).1.plot_cryosat = l2Figures d st.year) := by
  constructor
  · intro env st m d hdata hhit
    cases hm : set_plot_metadata st with
    | mk st1 r =>
      have hfr := set_plot_metadata_frame st
      rw [hm] at hfr
      simp only at hfr
      obtain ⟨hc, hd, hl, hg⟩ := hfr
      cases r with
      | some e => simp [yearChange, hm, hd, hc]
      | none =>
        have hdata1 : st1.data = some m := by rw [hd, hdata]
        have hhit1 : alistGet m (get_rgi_id st1.lookup st1.glacier_name) = some d := by
          rw [hl, hg]; exact hhit
        obtain ⟨h1, h2⟩ := set_plot_hit_frame env st1 m d hdata1 hhit1
        have hy : yearChange env st = set_plot env st1 := by simp [yearChange, hm]
        rw [hy]
        exact ⟨h2.trans hd, h1.trans hc⟩
  · intro env st m d tbl runoff series n lbl hdata hhit hrd hdh hmr hname hne hreg hgd
    have hf2 : nameFalsy st.glacier_name = false := by simp [nameFalsy, hname, hne]
    have h1 : set_plot_metadata st =
        ({st with
            region_name_html := lbl,
            plot_title := "<h1>" ++ st.glacier_name.getD ("") ++ ", " ++ lbl ++
              " (" ++ toString st.year ++ ")</h1>"}, none) := by
      simp [set_plot_metadata, set_region_name, hreg, hf2]
    cases heolis : d.eolis with
    | none =>
      refine ⟨?_, ?_, ?_⟩ <;>
        simp [yearChange, h1, set_plot, hdata, hhit, set_plot_render,
          plot_dashboard_l1, plot_dashboard_l2, hrd, hdh, hmr, hf2, heolis,
          l1Figures, l2Figures]
    | some dc =>
      rcases hgd with he | hgne
      · rw [he] at heolis; cases heolis
      · cases hgdir : d.gdir with
        | none => exact absurd hgdir hgne
        | some g =>
          refine ⟨?_, ?_, ?_⟩ <;>
            simp [yearChange, h1, set_plot, hdata, hhit, set_plot_render,
              plot_dashboard_l1, plot_dashboard_l2, hrd, hdh, hmr, hf2, heolis, hgdir,
              l1Figures, l2Figures]

/-- C5 is false as stated: in `stHit` the default glacier is already cached,
but its cached dataset has no runoff table, so a year change raises TypeError
inside `plot_dashboard_l1` and the figure panes are NOT regenerated — while,
as the claim also asserts, the Data Cache Map stays unchanged and no external
fetch happens. -/
theorem claim5_counterexample :
    stHit.data = some [("RGI60-11.00897", dsAllNone)] ∧
    alistGet [("RGI60-11.00897", dsAllNone)] (get_rgi_id stHit.lookup stHit.glacier_name) =
      some dsAllNone ∧
    (yearChange envTest stHit).2 = some .typeError ∧
    (yearChange envTest stHit).1.plot_oggm = stHit.plot_oggm ∧
    (yearChange envTest stHit).1.plot_cryosat = stHit.plot_cryosat ∧
    (yearChange envTest stHit).1.data = stHit.data ∧
    (yearChange envTest stHit).1.calls = stHit.calls :=
  ⟨rfl, rfl, rfl, rfl, rfl, rfl, rfl⟩

/-- A fully populated glacier directory payload. -/
def gdirHef : List (String × String) :=
  [("name", "Hintereisferner"), ("rgi_area_km2", "8.04")]

/-- A runoff table shaped as the cached artifacts are. -/
def runoffTbl : List (String × List (String × Nat)) :=
  [("Daily_Hugonnet_2000_2020", [("monthly_runoff", 5)])]

/-- A complete cached dataset (all five artifacts present). -/
def dsFull : Dataset := ⟨some gdirHef, some 3, some 7, some runoffTbl, some 9⟩

/-- The base state with a selected glacier whose complete dataset is cached. -/
def stFull : SelState :=
  {stBase with glacier_name := some "Hintereisferner",
               data := some [("RGI60-11.00897", dsFull)]}

/-- Witness for C5 (amended) at a concrete state with a complete cached
dataset: the year-change run succeeds, refetches nothing, and regenerates
both panes. -/
theorem claim5_witness :
    ((yearChange envTest stFull).1.data = stFull.data ∧
     (yearChange envTest stFull).1.calls = stFull.calls) ∧
    ((yearChange envTest stFull).2 = none ∧
     (yearChange envTest stFull).1.plot_oggm =
       l1Figures dsFull stFull.year stFull.oggm_model 5 ∧
     (yearChange envTest stFull).1.plot_cryosat = l2Figures dsFull stFull.year) :=
  ⟨(claim5_year_change_no_refetch).1 envTest stFull [("RGI60-11.00897", dsFull)] dsFull rfl rfl,
   (claim5_year_change_no_refetch).2 envTest stFull [("RGI60-11.00897", dsFull)] dsFull
     runoffTbl [("monthly_runoff", 5)] 5 "Hintereisferner" "Central Europe"
     rfl rfl rfl rfl rfl rfl (by decide) rfl (Or.inr (by decide))⟩

end DTCGWeb
